import Mathlib

/-!
Shallow embedding of the LINE Rich Menu API client module
(`src/richMenuClient.js`, given as `src/unnamed/part_000`) and its
configuration (`src/src/config.js`), together with theorems checking the
natural-language specification against the code.

Modelling conventions:
- JavaScript JSON values are modelled by the inductive `JsonVal`
  (numbers as `Int`; floating-point bodies are out of scope of the claims).
- The platform `fetch` `Response` object is modelled by the structure
  `Response`, recording what each accessor returns: `status`,
  `headers.get` for the content type, the body as text, the body as binary,
  and the result of `JSON.parse` on the body text (`none` = parse failure).
- A transport is a function from the constructed `Request` and the attempt
  index to a `Response`; retries re-send the same request, so the attempt
  index distinguishes successive responses to one request.
- Exceptions are modelled by `Outcome`: `ok` for a returned value,
  `apiError` for a thrown `RichMenuApiError`, and `thrown` for any other
  uncaught exception (e.g. the `SyntaxError` of a failed `JSON.parse`, or a
  `TypeError` from a property access on `null`).
- Each exported operation additionally reports how many transport calls it
  made and which request (if any) it sent, so that "no network I/O" and
  "wrong base address" properties are statable.
-/

/-- A JavaScript JSON value. Numbers are modelled as integers: no claim
involves fractional numeric bodies. -/
inductive JsonVal where
  | null : JsonVal
  | bool (b : Bool) : JsonVal
  | num (n : Int) : JsonVal
  | str (s : String) : JsonVal
  | arr (elems : List JsonVal) : JsonVal
  | obj (fields : List (String × JsonVal)) : JsonVal

/-- Model of `JSON.stringify`, modulo string escaping (no claim exercises bodies whose
strings contain characters that `JSON.stringify` would escape). -/
def jsonStringify : JsonVal → String
  | .null => "null"
  | .bool b => cond b "true" "false"
  | .num n => toString n
  | .str s => "\"" ++ s ++ "\""
  | .arr elems => "[" ++ String.intercalate "," (elems.attach.map fun x => jsonStringify x.1) ++ "]"
  | .obj fields => "\x7b" ++ String.intercalate ","
      (fields.attach.map fun p => "\"" ++ p.1.1 ++ "\":" ++ jsonStringify p.1.2) ++ "\x7d"
decreasing_by
  · have := List.sizeOf_lt_of_mem x.2
    simp only [JsonVal.arr.sizeOf_spec]
    omega
  · have h1 := List.sizeOf_lt_of_mem p.2
    have h2 : sizeOf p.1.2 < sizeOf p.1 := by
      obtain ⟨a, b⟩ := p.1
      simp only [Prod.mk.sizeOf_spec]
      omega
    simp only [JsonVal.obj.sizeOf_spec]
    omega

/-- JavaScript truthiness of a JSON value. -/
def jsTruthy : JsonVal → Bool
  | .null => false
  | .bool b => b
  | .num n => n != 0
  | .str s => s ≠ ""
  | .arr _ => true
  | .obj _ => true

/-- JavaScript string coercion (as in template-literal interpolation).
Arrays join their elements with commas; objects print the generic tag. -/
def jsToString : JsonVal → String
  | .null => "null"
  | .bool b => cond b "true" "false"
  | .num n => toString n
  | .str s => s
  | .arr elems => String.intercalate "," (elems.attach.map fun x => jsToString x.1)
  | .obj _ => "[object Object]"
decreasing_by
  have := List.sizeOf_lt_of_mem x.2
  simp only [JsonVal.arr.sizeOf_spec]
  omega

/-- Optional-chained property access `v?.k`: a field lookup on an object,
`undefined` (modelled as `none`) on everything else. -/
def jsOptField (v : JsonVal) (k : String) : Option JsonVal :=
  match v with
  | .obj fields => (fields.find? (fun p => p.1 = k)).map (fun p => p.2)
  | _ => none

/-- Model of `s.includes(sub)` on JavaScript strings. -/
def strIncludes (s sub : String) : Bool :=
  decide (sub.toList <:+: s.toList)

/-- The configuration object of `src/src/config.js`. -/
structure Config where
  API_BASE_URL : String
  DATA_API_BASE_URL : String
  ALLOWED_SIZES : List (Nat × Nat)
  ALLOWED_IMAGE_TYPES : List String
  MAX_RETRIES : Nat
  RETRY_BASE_DELAY_MS : Nat

/-- The concrete configuration constants from `src/src/config.js`
(the credential itself is threaded explicitly as a `token` argument,
modelling `getAccessToken()`). -/
def config : Config :=
  { API_BASE_URL := "https://api.line.me"
    DATA_API_BASE_URL := "https://api-data.line.me"
    ALLOWED_SIZES := [(2500, 1686), (2500, 843), (1200, 810), (1200, 405), (800, 540), (800, 270)]
    ALLOWED_IMAGE_TYPES := ["image/png", "image/jpeg"]
    MAX_RETRIES := 3
    RETRY_BASE_DELAY_MS := 1000 }

/-- The body attached to an outgoing request: JSON text or raw bytes. -/
inductive RequestBody where
  | jsonText (s : String) : RequestBody
  | bytes (b : ByteArray) : RequestBody

/-- An outgoing HTTP request as the client constructs it: URL, verb, the
Content-Type header (when set), the Authorization header (when set), and
the body (when present). -/
structure Request where
  url : String
  method : String
  contentType : Option String
  authorization : Option String
  reqBody : Option RequestBody

/-- The per-operation fetch options built by each exported operation
(the `options` argument of `apiCall`): verb, Content-Type header, body. -/
structure ApiOptions where
  method : String
  contentType : Option String
  reqBody : Option RequestBody

/-- Default options of `apiCall`: plain GET, no extra headers, no body. -/
def noOptions : ApiOptions :=
  { method := "GET", contentType := none, reqBody := none }

/-- A platform `Response` object, recorded by what its accessors return.
`bodyJson` is the result of `JSON.parse` on the body text (`none` models a
parse failure); `bodyBytes` is the body as `arrayBuffer()`. -/
structure Response where
  status : Nat
  contentType : Option String
  bodyText : String
  bodyJson : Option JsonVal
  bodyBytes : ByteArray

/-- Model of `response.ok`: status in the 200–299 range. -/
def respOk (r : Response) : Bool :=
  200 ≤ r.status && r.status ≤ 299

/-- A transport: given the constructed request and the attempt index
(0-based; retries re-send the same request), the response the remote
service produces. -/
abbrev Transport := Request → Nat → Response

/-- Result of `fetchWithRetry`: the final response, the total number of
transport attempts made, and the list of back-off delays (in ms) awaited,
in order. -/
structure FetchResult where
  response : Response
  attempts : Nat
  delays : List Nat

/-- Model of `fetchWithRetry` of `richMenuClient.js`: call the transport; on a 429
with retries remaining, wait `RETRY_BASE_DELAY_MS * 2 ^ retryCount` and
recurse with `retryCount + 1`; otherwise return the response. The model
additionally counts attempts and records the delays. -/
def fetchWithRetry (transport : Nat → Response) (retryCount : Nat) : FetchResult :=
  let response := transport retryCount
  if h : response.status = 429 ∧ retryCount < config.MAX_RETRIES then
    let waitTime := config.RETRY_BASE_DELAY_MS * 2 ^ retryCount
    let rest := fetchWithRetry transport (retryCount + 1)
    { response := rest.response, attempts := rest.attempts + 1, delays := waitTime :: rest.delays }
  else
    { response := response, attempts := 1, delays := [] }
termination_by config.MAX_RETRIES + 1 - retryCount
decreasing_by omega

/-- The typed error `RichMenuApiError` of `richMenuClient.js`: message,
HTTP status code, and the remote error detail (`details` defaults to the
empty object in the source constructor). -/
structure RichMenuApiError where
  message : String
  statusCode : Nat
  details : JsonVal

/-- Outcome of an operation: a returned value, a thrown
`RichMenuApiError`, or any other uncaught exception (`thrown`). -/
inductive Outcome (α : Type) where
  | ok (v : α) : Outcome α
  | apiError (e : RichMenuApiError) : Outcome α
  | thrown : Outcome α

/-- Result of one exported operation: its outcome, the number of transport
calls it made, and the request it sent (`none` when it never reached the
network). -/
structure OpResult (α : Type) where
  outcome : Outcome α
  calls : Nat
  request : Option Request

/-- The 401 `RichMenuApiError` that `ensureToken` constructs inline
(`details` defaults to the empty object in the constructor). -/
def tokenNotSetError : RichMenuApiError :=
  { message := "尚未設定 Channel Access Token。請先透過環境變數或 setAccessToken() 設定。"
    statusCode := 401
    details := .obj [] }

/-- Model of `ensureToken`: fail with a 401 `RichMenuApiError` when the token is
empty (falsy) or the placeholder, otherwise return it. -/
def ensureToken (token : String) : Except RichMenuApiError String :=
  if token = "" ∨ token = "your_channel_access_token_here" then
    .error tokenNotSetError
  else
    .ok token

/-- The detail expression of `getErrorMessage`:
`body?.message || body?.error?.message || JSON.stringify(body)`,
first truthy value wins, coerced to a string at the interpolation site. -/
def getDetail (body : JsonVal) : String :=
  match (jsOptField body "message").filter jsTruthy with
  | some v => jsToString v
  | none =>
    match ((jsOptField body "error").bind (fun e => jsOptField e "message")).filter jsTruthy with
    | some v => jsToString v
    | none => jsonStringify body

/-- Model of `getErrorMessage`: the status-code-keyed message table of
`richMenuClient.js`, with the generic template as fallback. -/
def getErrorMessage (status : Nat) (body : JsonVal) : String :=
  let detail := getDetail body
  if status = 400 then "請求參數錯誤：" ++ detail
  else if status = 401 then "Channel Access Token 無效或已過期，請重新取得。"
  else if status = 403 then "權限不足，請確認 Token 的權限設定。"
  else if status = 404 then "找不到指定的資源（Rich Menu 或使用者）。"
  else if status = 409 then "資源衝突，可能已存在相同的別名。"
  else if status = 429 then "API 呼叫頻率超限，請稍後再試。"
  else "API 呼叫失敗 (HTTP " ++ toString status ++ ")：" ++ detail

/-- The generic success marker the client returns for empty bodies. -/
def successMarker : JsonVal :=
  .obj [("success", .bool true)]

/-- Model of `apiCall` of `richMenuClient.js`: check the token, build the request
(base URL ++ endpoint, Authorization header merged with the options of
the operation), dispatch through `fetchWithRetry`, then normalize: 204 and empty
or literal-empty-object non-JSON bodies become the success marker, a JSON
content type yields the parsed body (an unparseable body in that branch is
an uncaught `SyntaxError`, modelled as `thrown`), any other unparseable
success body becomes a raw-text success wrapper, and every non-2xx status
becomes a `RichMenuApiError` built from `getErrorMessage` with the parsed
(or text-wrapped) error body as `details`. -/
def apiCall (token : String) (transport : Transport) (endpoint : String)
    (options : ApiOptions) (baseUrl : String) : OpResult JsonVal :=
  match ensureToken token with
  | .error e => { outcome := .apiError e, calls := 0, request := none }
  | .ok tok =>
    let req : Request :=
      { url := baseUrl ++ endpoint
        method := options.method
        contentType := options.contentType
        authorization := some ("Bearer " ++ tok)
        reqBody := options.reqBody }
    let fr := fetchWithRetry (transport req) 0
    let response := fr.response
    let outcome : Outcome JsonVal :=
      if response.status = 204 then
        .ok successMarker
      else
        let contentType := response.contentType.getD ""
        if respOk response then
          if strIncludes contentType "application/json" then
            match response.bodyJson with
            | some data => .ok data
            | none => .thrown
          else
            let text := response.bodyText
            if text = "\x7b\x7d" ∨ text = "" then
              .ok successMarker
            else
              match response.bodyJson with
              | some v => .ok v
              | none => .ok (.obj [("success", .bool true), ("raw", .str text)])
        else
          let errorBody : JsonVal :=
            match response.bodyJson with
            | some j => j
            | none => .obj [("message", .str response.bodyText)]
          .apiError
            { message := getErrorMessage response.status errorBody
              statusCode := response.status
              details := errorBody }
    { outcome := outcome, calls := fr.attempts, request := some req }

/-- The JavaScript expression `result.field || fallback` as used by the two
list operations: a property access on `null` throws a `TypeError`
(`thrown`); otherwise the value of the field when present and truthy, the
fallback when absent or falsy. -/
def unwrapField (result : JsonVal) (field : String) (fallback : JsonVal) : Outcome JsonVal :=
  match result with
  | .null => .thrown
  | _ =>
    match jsOptField result field with
    | some v => if jsTruthy v then .ok v else .ok fallback
    | none => .ok fallback

/-- Model of `listRichMenus`: GET `/v2/bot/richmenu/list`, unwrap `result.richmenus || []`. -/
def listRichMenus (token : String) (transport : Transport) : OpResult JsonVal :=
  let r := apiCall token transport "/v2/bot/richmenu/list" noOptions config.API_BASE_URL
  match r.outcome with
  | .ok result => { r with outcome := unwrapField result "richmenus" (.arr []) }
  | other => { r with outcome := other }

/-- Model of `getRichMenu`: GET `/v2/bot/richmenu/:id`. -/
def getRichMenu (token : String) (transport : Transport) (richMenuId : String) : OpResult JsonVal :=
  apiCall token transport ("/v2/bot/richmenu/" ++ richMenuId) noOptions config.API_BASE_URL

/-- Model of `createRichMenu`: POST `/v2/bot/richmenu` with a JSON body. -/
def createRichMenu (token : String) (transport : Transport) (richMenuData : JsonVal) : OpResult JsonVal :=
  apiCall token transport "/v2/bot/richmenu"
    { method := "POST", contentType := some "application/json"
      reqBody := some (.jsonText (jsonStringify richMenuData)) }
    config.API_BASE_URL

/-- Model of `validateRichMenu`: POST `/v2/bot/richmenu/validate` with a JSON body. -/
def validateRichMenu (token : String) (transport : Transport) (richMenuData : JsonVal) : OpResult JsonVal :=
  apiCall token transport "/v2/bot/richmenu/validate"
    { method := "POST", contentType := some "application/json"
      reqBody := some (.jsonText (jsonStringify richMenuData)) }
    config.API_BASE_URL

/-- Model of `deleteRichMenu`: DELETE `/v2/bot/richmenu/:id`. -/
def deleteRichMenu (token : String) (transport : Transport) (richMenuId : String) : OpResult JsonVal :=
  apiCall token transport ("/v2/bot/richmenu/" ++ richMenuId)
    { method := "DELETE", contentType := none, reqBody := none }
    config.API_BASE_URL

/-- Model of `path.extname` (Node): the substring of the last path component from
its last dot to the end; empty when there is no dot or the only dot starts
the component. -/
def extname (p : String) : String :=
  let base := (p.toList.reverse.takeWhile (fun c => c ≠ '/')).reverse
  let afterDot := base.reverse.takeWhile (fun c => c ≠ '.')
  if afterDot.length = base.length then ""
  else if afterDot.length + 1 = base.length then ""
  else String.mk ('.' :: afterDot.reverse)

/-- Model of `.toLowerCase()` on a JavaScript string (ASCII case mapping). -/
def strToLower (s : String) : String :=
  String.mk (s.toList.map Char.toLower)

/-- The megabyte figure interpolated into the oversize message:
`(len / 1024 / 1024).toFixed(2)`, computed on exact rationals with
round-half-up (the binary-floating-point rounding of the last digit is not
modelled; no claim depends on this text). -/
def mbString (len : Nat) : String :=
  let hundredths := (len * 100 * 2 + 1048576) / (2 * 1048576)
  toString (hundredths / 100) ++ "." ++
    (if hundredths % 100 < 10 then "0" else "") ++ toString (hundredths % 100)

/-- The image argument of `uploadRichMenuImage`: a Buffer, a file path
string, or any other value (which the source rejects). -/
inductive ImageInput where
  | buffer (b : ByteArray) : ImageInput
  | filePath (p : String) : ImageInput
  | invalid : ImageInput

/-- Model of `uploadRichMenuImage`: resolve the image argument (Buffer used as-is;
file path resolved, existence-checked, read, with MIME auto-detection from
the extension; anything else a 400), reject buffers over 1 MiB with a 400,
then POST the bytes to the data-plane base URL. The filesystem is modelled
by `resolvePath` (`path.resolve`) and `readFile` (`fs.existsSync` +
`fs.readFileSync`: `none` = file absent). -/
def uploadRichMenuImage (token : String) (transport : Transport)
    (resolvePath : String → String) (readFile : String → Option ByteArray)
    (richMenuId : String) (imageInput : ImageInput) (contentType : String) :
    OpResult JsonVal :=
  let resolved : Except RichMenuApiError (ByteArray × String) :=
    match imageInput with
    | .buffer b => .ok (b, contentType)
    | .filePath p =>
      let absolutePath := resolvePath p
      match readFile absolutePath with
      | none =>
        .error { message := "找不到圖片檔案：" ++ absolutePath, statusCode := 400, details := .obj [] }
      | some imageBuffer =>
        let ext := strToLower (extname absolutePath)
        let ct :=
          if ext = ".jpg" ∨ ext = ".jpeg" then "image/jpeg"
          else if ext = ".png" then "image/png"
          else contentType
        .ok (imageBuffer, ct)
    | .invalid =>
      .error { message := "imageInput 必須為檔案路徑（string）或 Buffer", statusCode := 400, details := .obj [] }
  match resolved with
  | .error e => { outcome := .apiError e, calls := 0, request := none }
  | .ok (imageBuffer, ct) =>
    if imageBuffer.size > 1024 * 1024 then
      { outcome := .apiError
          { message := "圖片檔案大小超過 1MB 限制（目前 " ++ mbString imageBuffer.size ++ " MB）"
            statusCode := 400
            details := .obj [] }
        calls := 0
        request := none }
    else
      apiCall token transport ("/v2/bot/richmenu/" ++ richMenuId ++ "/content")
        { method := "POST", contentType := some ct, reqBody := some (.bytes imageBuffer) }
        config.DATA_API_BASE_URL

/-- Model of `downloadRichMenuImage`: check the token, GET the image from the
data-plane base URL through `fetchWithRetry`, throw a `RichMenuApiError`
with the generic download message (and default empty `details`) on a
non-ok status, and return the raw bytes on success. -/
def downloadRichMenuImage (token : String) (transport : Transport)
    (richMenuId : String) : OpResult ByteArray :=
  match ensureToken token with
  | .error e => { outcome := .apiError e, calls := 0, request := none }
  | .ok tok =>
    let req : Request :=
      { url := config.DATA_API_BASE_URL ++ "/v2/bot/richmenu/" ++ richMenuId ++ "/content"
        method := "GET"
        contentType := none
        authorization := some ("Bearer " ++ tok)
        reqBody := none }
    let fr := fetchWithRetry (transport req) 0
    let outcome : Outcome ByteArray :=
      if respOk fr.response then
        .ok fr.response.bodyBytes
      else
        .apiError
          { message := "無法下載圖片（HTTP " ++ toString fr.response.status ++ "）"
            statusCode := fr.response.status
            details := .obj [] }
    { outcome := outcome, calls := fr.attempts, request := some req }

/-- Model of `setDefaultRichMenu`: POST `/v2/bot/user/all/richmenu/:id`. -/
def setDefaultRichMenu (token : String) (transport : Transport) (richMenuId : String) : OpResult JsonVal :=
  apiCall token transport ("/v2/bot/user/all/richmenu/" ++ richMenuId)
    { method := "POST", contentType := none, reqBody := none }
    config.API_BASE_URL

/-- Model of `getDefaultRichMenu`: GET `/v2/bot/user/all/richmenu`. -/
def getDefaultRichMenu (token : String) (transport : Transport) : OpResult JsonVal :=
  apiCall token transport "/v2/bot/user/all/richmenu" noOptions config.API_BASE_URL

/-- Model of `cancelDefaultRichMenu`: DELETE `/v2/bot/user/all/richmenu`. -/
def cancelDefaultRichMenu (token : String) (transport : Transport) : OpResult JsonVal :=
  apiCall token transport "/v2/bot/user/all/richmenu"
    { method := "DELETE", contentType := none, reqBody := none }
    config.API_BASE_URL

/-- Model of `linkRichMenuToUser`: POST `/v2/bot/user/:userId/richmenu/:richMenuId`. -/
def linkRichMenuToUser (token : String) (transport : Transport)
    (userId richMenuId : String) : OpResult JsonVal :=
  apiCall token transport ("/v2/bot/user/" ++ userId ++ "/richmenu/" ++ richMenuId)
    { method := "POST", contentType := none, reqBody := none }
    config.API_BASE_URL

/-- Model of `unlinkRichMenuFromUser`: DELETE `/v2/bot/user/:userId/richmenu`. -/
def unlinkRichMenuFromUser (token : String) (transport : Transport) (userId : String) : OpResult JsonVal :=
  apiCall token transport ("/v2/bot/user/" ++ userId ++ "/richmenu")
    { method := "DELETE", contentType := none, reqBody := none }
    config.API_BASE_URL

/-- Model of `getUserRichMenu`: GET `/v2/bot/user/:userId/richmenu`. -/
def getUserRichMenu (token : String) (transport : Transport) (userId : String) : OpResult JsonVal :=
  apiCall token transport ("/v2/bot/user/" ++ userId ++ "/richmenu") noOptions config.API_BASE_URL

/-- Model of `bulkLinkRichMenu`: reject user lists over 500 with a local 400, then
POST `/v2/bot/richmenu/bulk/link` with the JSON body. -/
def bulkLinkRichMenu (token : String) (transport : Transport)
    (richMenuId : String) (userIds : List String) : OpResult JsonVal :=
  if userIds.length > 500 then
    { outcome := .apiError
        { message := "批量綁定上限為 500 個使用者", statusCode := 400, details := .obj [] }
      calls := 0
      request := none }
  else
    apiCall token transport "/v2/bot/richmenu/bulk/link"
      { method := "POST", contentType := some "application/json"
        reqBody := some (.jsonText (jsonStringify
          (.obj [("richMenuId", .str richMenuId), ("userIds", .arr (userIds.map .str))]))) }
      config.API_BASE_URL

/-- Model of `bulkUnlinkRichMenu`: reject user lists over 500 with a local 400, then
POST `/v2/bot/richmenu/bulk/unlink` with the JSON body. -/
def bulkUnlinkRichMenu (token : String) (transport : Transport)
    (userIds : List String) : OpResult JsonVal :=
  if userIds.length > 500 then
    { outcome := .apiError
        { message := "批量解除綁定上限為 500 個使用者", statusCode := 400, details := .obj [] }
      calls := 0
      request := none }
  else
    apiCall token transport "/v2/bot/richmenu/bulk/unlink"
      { method := "POST", contentType := some "application/json"
        reqBody := some (.jsonText (jsonStringify (.obj [("userIds", .arr (userIds.map .str))]))) }
      config.API_BASE_URL

/-- Model of `createRichMenuAlias`: POST `/v2/bot/richmenu/alias` with a JSON body. -/
def createRichMenuAlias (token : String) (transport : Transport)
    (richMenuAliasId richMenuId : String) : OpResult JsonVal :=
  apiCall token transport "/v2/bot/richmenu/alias"
    { method := "POST", contentType := some "application/json"
      reqBody := some (.jsonText (jsonStringify
        (.obj [("richMenuAliasId", .str richMenuAliasId), ("richMenuId", .str richMenuId)]))) }
    config.API_BASE_URL

/-- Model of `updateRichMenuAlias`: POST `/v2/bot/richmenu/alias/:aliasId` with a JSON body. -/
def updateRichMenuAlias (token : String) (transport : Transport)
    (richMenuAliasId richMenuId : String) : OpResult JsonVal :=
  apiCall token transport ("/v2/bot/richmenu/alias/" ++ richMenuAliasId)
    { method := "POST", contentType := some "application/json"
      reqBody := some (.jsonText (jsonStringify (.obj [("richMenuId", .str richMenuId)]))) }
    config.API_BASE_URL

/-- Model of `getRichMenuAlias`: GET `/v2/bot/richmenu/alias/:aliasId`. -/
def getRichMenuAlias (token : String) (transport : Transport) (richMenuAliasId : String) : OpResult JsonVal :=
  apiCall token transport ("/v2/bot/richmenu/alias/" ++ richMenuAliasId) noOptions config.API_BASE_URL

/-- Model of `deleteRichMenuAlias`: DELETE `/v2/bot/richmenu/alias/:aliasId`. -/
def deleteRichMenuAlias (token : String) (transport : Transport) (richMenuAliasId : String) : OpResult JsonVal :=
  apiCall token transport ("/v2/bot/richmenu/alias/" ++ richMenuAliasId)
    { method := "DELETE", contentType := none, reqBody := none }
    config.API_BASE_URL

/-- Model of `listRichMenuAliases`: GET `/v2/bot/richmenu/alias/list`, unwrap
`result.aliases || []`. -/
def listRichMenuAliases (token : String) (transport : Transport) : OpResult JsonVal :=
  let r := apiCall token transport "/v2/bot/richmenu/alias/list" noOptions config.API_BASE_URL
  match r.outcome with
  | .ok result => { r with outcome := unwrapField result "aliases" (.arr []) }
  | other => { r with outcome := other }

/-! Helper lemmas about the retry loop. -/

/-- One retry step of the loop: a 429 with retries remaining waits the
exponential delay and recurses. -/
theorem fetchWithRetry_retry (t : Nat → Response) (rc : Nat)
    (h429 : (t rc).status = 429) (hlt : rc < config.MAX_RETRIES) :
    fetchWithRetry t rc =
      { response := (fetchWithRetry t (rc + 1)).response
        attempts := (fetchWithRetry t (rc + 1)).attempts + 1
        delays := config.RETRY_BASE_DELAY_MS * 2 ^ rc :: (fetchWithRetry t (rc + 1)).delays } := by
  rw [fetchWithRetry]
  simp [h429, hlt]

/-- The loop stops (returning the current response after exactly this one
attempt) when the status is not 429 or the retry budget is exhausted. -/
theorem fetchWithRetry_last (t : Nat → Response) (rc : Nat)
    (h : ¬((t rc).status = 429 ∧ rc < config.MAX_RETRIES)) :
    fetchWithRetry t rc = { response := t rc, attempts := 1, delays := [] } := by
  rw [fetchWithRetry]
  simp only [dif_neg h]

/-- On an all-429 transport, the loop runs the full retry budget. -/
theorem fetchWithRetry_all429 (t : Nat → Response) (h : ∀ n, (t n).status = 429) :
    fetchWithRetry t 0 =
      { response := t 3, attempts := 4, delays := [1000, 2000, 4000] } := by
  rw [fetchWithRetry_retry t 0 (h 0) (by decide),
      fetchWithRetry_retry t 1 (h 1) (by decide),
      fetchWithRetry_retry t 2 (h 2) (by decide),
      fetchWithRetry_last t 3 (fun hc => absurd hc.2 (by decide))]
  rfl

/-- Every dispatch makes at least one transport attempt. -/
theorem fetchWithRetry_attempts_pos (t : Nat → Response) (rc : Nat) :
    1 ≤ (fetchWithRetry t rc).attempts := by
  rw [fetchWithRetry]
  split <;> simp

/-- C1: on a transport answering 429 to every attempt, `fetchWithRetry`
makes exactly `MAX_RETRIES + 1` transport attempts, waiting
`RETRY_BASE_DELAY_MS * 2 ^ attempt` before each retry (attempt starting at
0), and returns the last 429 response; `apiCall` then surfaces it as a
`RichMenuApiError` with status code 429 after `MAX_RETRIES + 1` transport
calls; and a first response with any status other than 429 is never
retried. -/
theorem claim_C1_retry_bound (t : Nat → Response) (h : ∀ n, (t n).status = 429) :
    (fetchWithRetry t 0).attempts = config.MAX_RETRIES + 1 ∧
    (fetchWithRetry t 0).delays =
      (List.range config.MAX_RETRIES).map (fun k => config.RETRY_BASE_DELAY_MS * 2 ^ k) ∧
    (fetchWithRetry t 0).response = t config.MAX_RETRIES ∧
    (fetchWithRetry t 0).response.status = 429 ∧
    (∀ (tr : Transport) (tok endpoint : String) (opts : ApiOptions) (base : String),
        ¬(tok = "" ∨ tok = "your_channel_access_token_here") →
        (∀ req n, (tr req n).status = 429) →
        ∃ e, (apiCall tok tr endpoint opts base).outcome = .apiError e ∧
          e.statusCode = 429 ∧
          (apiCall tok tr endpoint opts base).calls = config.MAX_RETRIES + 1) ∧
    (∀ (t2 : Nat → Response) (rc : Nat), (t2 rc).status ≠ 429 →
        fetchWithRetry t2 rc = { response := t2 rc, attempts := 1, delays := [] }) := by
  refine ⟨?_, ?_, ?_, ?_, ?_, ?_⟩
  · rw [fetchWithRetry_all429 t h]
    rfl
  · rw [fetchWithRetry_all429 t h]
    rfl
  · rw [fetchWithRetry_all429 t h]
    rfl
  · rw [fetchWithRetry_all429 t h]
    exact h 3
  · intro tr tok endpoint opts base htok hall
    unfold apiCall
    simp only [ensureToken, if_neg htok]
    rw [fetchWithRetry_all429 _ (hall _)]
    simp only [hall, respOk]
    norm_num
    rfl
  · intro t2 rc h2
    exact fetchWithRetry_last t2 rc (fun hc => absurd hc.1 h2)

/-- A concrete all-429 response, used to instantiate retry theorems. -/
def resp429 : Response :=
  { status := 429
    contentType := some "application/json"
    bodyText := "\x7b\x7d"
    bodyJson := some (.obj [])
    bodyBytes := ByteArray.empty }

/-- Witness for C1: the constant all-429 transport satisfies the
hypothesis, and the retry loop then makes `MAX_RETRIES + 1` attempts with
the exponential delays. -/
theorem claim_C1_retry_bound_witness :
    (∀ n : Nat, ((fun _ : Nat => resp429) n).status = 429) ∧
    (fetchWithRetry (fun _ : Nat => resp429) 0).attempts = config.MAX_RETRIES + 1 ∧
    (fetchWithRetry (fun _ : Nat => resp429) 0).delays = [1000, 2000, 4000] :=
  ⟨fun _ => rfl,
   (claim_C1_retry_bound (fun _ => resp429) (fun _ => rfl)).1,
   by rw [(claim_C1_retry_bound (fun _ => resp429) (fun _ => rfl)).2.1]; rfl⟩

/-- The result every operation produces when the credential gate fails:
the 401 token error, zero transport calls, no request sent. -/
def unauthResult (α : Type) : OpResult α :=
  { outcome := .apiError tokenNotSetError, calls := 0, request := none }

/-- C2: with an empty or placeholder credential, every exported network
operation fails with the 401 `RichMenuApiError` and makes zero transport
calls (inputs that pass local validation, so that the
credential gate is the check that fires). -/
theorem claim_C2_auth_gate (tok : String)
    (hbad : tok = "" ∨ tok = "your_channel_access_token_here")
    (tr : Transport) (id uid aliasId : String) (data : JsonVal)
    (userIds : List String) (hlen : ¬ userIds.length > 500)
    (resolvePath : String → String) (readFile : String → Option ByteArray)
    (b : ByteArray) (hsize : ¬ b.size > 1024 * 1024) (ct : String) :
    listRichMenus tok tr = unauthResult JsonVal ∧
    getRichMenu tok tr id = unauthResult JsonVal ∧
    createRichMenu tok tr data = unauthResult JsonVal ∧
    validateRichMenu tok tr data = unauthResult JsonVal ∧
    deleteRichMenu tok tr id = unauthResult JsonVal ∧
    uploadRichMenuImage tok tr resolvePath readFile id (.buffer b) ct = unauthResult JsonVal ∧
    downloadRichMenuImage tok tr id = unauthResult ByteArray ∧
    setDefaultRichMenu tok tr id = unauthResult JsonVal ∧
    getDefaultRichMenu tok tr = unauthResult JsonVal ∧
    cancelDefaultRichMenu tok tr = unauthResult JsonVal ∧
    linkRichMenuToUser tok tr uid id = unauthResult JsonVal ∧
    unlinkRichMenuFromUser tok tr uid = unauthResult JsonVal ∧
    getUserRichMenu tok tr uid = unauthResult JsonVal ∧
    bulkLinkRichMenu tok tr id userIds = unauthResult JsonVal ∧
    bulkUnlinkRichMenu tok tr userIds = unauthResult JsonVal ∧
    createRichMenuAlias tok tr aliasId id = unauthResult JsonVal ∧
    updateRichMenuAlias tok tr aliasId id = unauthResult JsonVal ∧
    getRichMenuAlias tok tr aliasId = unauthResult JsonVal ∧
    deleteRichMenuAlias tok tr aliasId = unauthResult JsonVal ∧
    listRichMenuAliases tok tr = unauthResult JsonVal := by
  have hens : ensureToken tok = .error tokenNotSetError := by
    rcases hbad with h | h <;> subst h <;> simp [ensureToken]
  have hapi : ∀ (endpoint : String) (opts : ApiOptions) (base : String),
      apiCall tok tr endpoint opts base = unauthResult JsonVal := by
    intro endpoint opts base
    unfold apiCall
    rw [hens]
    rfl
  refine ⟨?_, ?_, ?_, ?_, ?_, ?_, ?_, ?_, ?_, ?_, ?_, ?_, ?_, ?_, ?_, ?_, ?_, ?_, ?_, ?_⟩
  · simp [listRichMenus, hapi]
    rfl
  · exact hapi _ _ _
  · exact hapi _ _ _
  · exact hapi _ _ _
  · exact hapi _ _ _
  · simp only [uploadRichMenuImage, if_neg hsize]
    exact hapi _ _ _
  · unfold downloadRichMenuImage
    rw [hens]
    rfl
  · exact hapi _ _ _
  · exact hapi _ _ _
  · exact hapi _ _ _
  · exact hapi _ _ _
  · exact hapi _ _ _
  · exact hapi _ _ _
  · simp only [bulkLinkRichMenu, if_neg hlen]
    exact hapi _ _ _
  · simp only [bulkUnlinkRichMenu, if_neg hlen]
    exact hapi _ _ _
  · exact hapi _ _ _
  · exact hapi _ _ _
  · exact hapi _ _ _
  · exact hapi _ _ _
  · simp [listRichMenuAliases, hapi]
    rfl

/-- Witness for C2: the empty token satisfies the gate hypothesis, the
empty buffer and empty user list pass local validation, and two sample
operations (one JSON, one binary) return the 401 result with zero calls. -/
theorem claim_C2_auth_gate_witness :
    (("" : String) = "" ∨ ("" : String) = "your_channel_access_token_here") ∧
    ¬ (([] : List String).length > 500) ∧
    ¬ (ByteArray.empty.size > 1024 * 1024) ∧
    listRichMenus "" (fun _ _ => resp429) = unauthResult JsonVal ∧
    downloadRichMenuImage "" (fun _ _ => resp429) "m1" = unauthResult ByteArray := by
  have H := claim_C2_auth_gate "" (Or.inl rfl) (fun _ _ => resp429) "m1" "u1" "a1"
    (.obj []) [] (by decide) (fun p => p) (fun _ => none) ByteArray.empty (by decide) "image/png"
  exact ⟨Or.inl rfl, by decide, by decide, H.1, H.2.2.2.2.2.2.1⟩

/-- C3: with a valid token, when the final response (after any retries) is
neither 204 nor 2xx, `apiCall` throws exactly one `RichMenuApiError`: its
status code is the response status; its `details` is the JSON-parsed error
body, or a `message`-wrapped raw text when the body fails to parse (never
a second, untyped failure); its message comes from the lookup table for
statuses 400/401/403/404/409/429 and from the generic template carrying
the numeric status otherwise. -/
theorem claim_C3_error_normalization
    (tok : String) (htok : ¬(tok = "" ∨ tok = "your_channel_access_token_here"))
    (tr : Transport) (endpoint : String) (opts : ApiOptions) (base : String)
    (resp : Response)
    (hresp : (fetchWithRetry (tr
        { url := base ++ endpoint, method := opts.method, contentType := opts.contentType
          authorization := some ("Bearer " ++ tok), reqBody := opts.reqBody }) 0).response = resp)
    (h204 : resp.status ≠ 204) (hok : respOk resp = false) :
    ∃ e, (apiCall tok tr endpoint opts base).outcome = .apiError e ∧
      (apiCall tok tr endpoint opts base).outcome ≠ .thrown ∧
      e.statusCode = resp.status ∧
      e.details = (match resp.bodyJson with
                   | some j => j
                   | none => .obj [("message", .str resp.bodyText)]) ∧
      e.message = getErrorMessage resp.status e.details ∧
      (resp.status = 400 → e.message = "請求參數錯誤：" ++ getDetail e.details) ∧
      (resp.status = 401 → e.message = "Channel Access Token 無效或已過期，請重新取得。") ∧
      (resp.status = 403 → e.message = "權限不足，請確認 Token 的權限設定。") ∧
      (resp.status = 404 → e.message = "找不到指定的資源（Rich Menu 或使用者）。") ∧
      (resp.status = 409 → e.message = "資源衝突，可能已存在相同的別名。") ∧
      (resp.status = 429 → e.message = "API 呼叫頻率超限，請稍後再試。") ∧
      (resp.status ≠ 400 → resp.status ≠ 401 → resp.status ≠ 403 → resp.status ≠ 404 →
        resp.status ≠ 409 → resp.status ≠ 429 →
        e.message = "API 呼叫失敗 (HTTP " ++ toString resp.status ++ ")：" ++ getDetail e.details) := by
  unfold apiCall
  simp only [ensureToken, if_neg htok]
  rw [hresp]
  simp only [if_neg h204, hok, Bool.false_eq_true, if_false]
  refine ⟨_, rfl, by simp, rfl, rfl, rfl, ?_, ?_, ?_, ?_, ?_, ?_, ?_⟩
  · intro h4
    simp [getErrorMessage, h4]
  · intro h4
    simp [getErrorMessage, h4]
  · intro h4
    simp [getErrorMessage, h4]
  · intro h4
    simp [getErrorMessage, h4]
  · intro h4
    simp [getErrorMessage, h4]
  · intro h4
    simp [getErrorMessage, h4]
  · intro n1 n2 n3 n4 n5 n6
    simp [getErrorMessage, n1, n2, n3, n4, n5, n6]

/-- A concrete 500 response with an unparseable text body, used to
instantiate the error-normalization theorem. -/
def resp500 : Response :=
  { status := 500
    contentType := some "text/html"
    bodyText := "boom"
    bodyJson := none
    bodyBytes := ByteArray.empty }

/-- Witness for C3: on a constant 500/"boom" transport, `apiCall` throws
the typed error with the generic message and the text-wrapped detail. -/
theorem claim_C3_error_normalization_witness :
    (¬(("t0ken" : String) = "" ∨ ("t0ken" : String) = "your_channel_access_token_here")) ∧
    resp500.status ≠ 204 ∧ respOk resp500 = false ∧
    ∃ e, (apiCall "t0ken" (fun _ _ => resp500) "/v2/bot/richmenu/list" noOptions
            config.API_BASE_URL).outcome = .apiError e ∧
      e.statusCode = 500 ∧
      e.details = .obj [("message", .str "boom")] ∧
      e.message = "API 呼叫失敗 (HTTP 500)：boom" := by
  have htok : ¬(("t0ken" : String) = "" ∨ ("t0ken" : String) = "your_channel_access_token_here") := by
    decide
  have hresp : (fetchWithRetry ((fun _ _ => resp500 : Transport)
      { url := config.API_BASE_URL ++ "/v2/bot/richmenu/list", method := noOptions.method
        contentType := noOptions.contentType, authorization := some ("Bearer " ++ "t0ken")
        reqBody := noOptions.reqBody }) 0).response = resp500 := by
    rw [fetchWithRetry_last _ 0 (fun hc => absurd hc.1 (by decide))]
  obtain ⟨e, h1, _, h3, h4, h5, _⟩ :=
    claim_C3_error_normalization "t0ken" htok (fun _ _ => resp500) "/v2/bot/richmenu/list"
      noOptions config.API_BASE_URL resp500 hresp (by decide) (by decide)
  refine ⟨htok, by decide, by decide, e, h1, h3, ?_, ?_⟩
  · rw [h4]
    rfl
  · rw [h5, h4]
    simp only [resp500]
    simp +decide [getErrorMessage, getDetail, jsOptField, jsTruthy, Option.filter, jsToString]

/-- C4: with a valid token, `apiCall` normalizes successful responses: a
204, a non-JSON body equal to the literal empty-object text, and a
non-JSON empty body all yield the same success marker (an object, never
`null`); a JSON content type yields the parsed body directly; and any
other success body that fails to parse is returned as a raw-text success
wrapper, not an error. -/
theorem claim_C4_success_normalization
    (tok : String) (htok : ¬(tok = "" ∨ tok = "your_channel_access_token_here"))
    (tr : Transport) (endpoint : String) (opts : ApiOptions) (base : String)
    (resp : Response)
    (hresp : (fetchWithRetry (tr
        { url := base ++ endpoint, method := opts.method, contentType := opts.contentType
          authorization := some ("Bearer " ++ tok), reqBody := opts.reqBody }) 0).response = resp) :
    (resp.status = 204 →
      (apiCall tok tr endpoint opts base).outcome = .ok successMarker) ∧
    (respOk resp = true →
      strIncludes (resp.contentType.getD "") "application/json" = false →
      resp.bodyText = "\x7b\x7d" →
      (apiCall tok tr endpoint opts base).outcome = .ok successMarker) ∧
    (respOk resp = true →
      strIncludes (resp.contentType.getD "") "application/json" = false →
      resp.bodyText = "" →
      (apiCall tok tr endpoint opts base).outcome = .ok successMarker) ∧
    (respOk resp = true → resp.status ≠ 204 →
      strIncludes (resp.contentType.getD "") "application/json" = true →
      ∀ j, resp.bodyJson = some j →
      (apiCall tok tr endpoint opts base).outcome = .ok j) ∧
    (respOk resp = true → resp.status ≠ 204 →
      strIncludes (resp.contentType.getD "") "application/json" = false →
      resp.bodyText ≠ "\x7b\x7d" → resp.bodyText ≠ "" →
      resp.bodyJson = none →
      (apiCall tok tr endpoint opts base).outcome =
        .ok (.obj [("success", .bool true), ("raw", .str resp.bodyText)])) ∧
    successMarker ≠ JsonVal.null := by
  refine ⟨?_, ?_, ?_, ?_, ?_, by simp [successMarker]⟩
  · intro h204
    unfold apiCall
    simp only [ensureToken, if_neg htok]
    rw [hresp]
    simp [h204]
  · intro hok hnj htext
    unfold apiCall
    simp only [ensureToken, if_neg htok]
    rw [hresp]
    by_cases h204 : resp.status = 204
    · simp [h204]
    · simp [h204, hok, hnj, htext]
  · intro hok hnj htext
    unfold apiCall
    simp only [ensureToken, if_neg htok]
    rw [hresp]
    by_cases h204 : resp.status = 204
    · simp [h204]
    · simp [h204, hok, hnj, htext]
  · intro hok h204 hj j hparse
    unfold apiCall
    simp only [ensureToken, if_neg htok]
    rw [hresp]
    simp [h204, hok, hj, hparse]
  · intro hok h204 hnj h1 h2 hparse
    unfold apiCall
    simp only [ensureToken, if_neg htok]
    rw [hresp]
    simp [h204, hok, hnj, h1, h2, hparse]

/-- A concrete 204 No Content response. -/
def resp204 : Response :=
  { status := 204, contentType := none, bodyText := "", bodyJson := none
    bodyBytes := ByteArray.empty }

/-- A concrete 200 response whose non-JSON body is the literal empty-object text. -/
def respEmptyObjText : Response :=
  { status := 200, contentType := some "text/plain", bodyText := "\x7b\x7d"
    bodyJson := some (.obj []), bodyBytes := ByteArray.empty }

/-- A concrete 200 response with an empty non-JSON body. -/
def respBlank : Response :=
  { status := 200, contentType := some "text/plain", bodyText := ""
    bodyJson := none, bodyBytes := ByteArray.empty }

/-- A concrete 200 JSON response whose body parses to `[1]`. -/
def respJson : Response :=
  { status := 200, contentType := some "application/json", bodyText := "[1]"
    bodyJson := some (.arr [.num 1]), bodyBytes := ByteArray.empty }

/-- A concrete 200 response with an unparseable non-JSON body. -/
def respRaw : Response :=
  { status := 200, contentType := some "text/plain", bodyText := "hello"
    bodyJson := none, bodyBytes := ByteArray.empty }

/-- Witness for C4: a 204, a literal-empty-object body and an empty body
all normalize to the success marker; a JSON body is returned parsed; an
unparseable text body is returned as the raw-text success wrapper. -/
theorem claim_C4_success_normalization_witness :
    (apiCall "t0ken" (fun _ _ => resp204) "/e" noOptions config.API_BASE_URL).outcome
      = .ok successMarker ∧
    (apiCall "t0ken" (fun _ _ => respEmptyObjText) "/e" noOptions config.API_BASE_URL).outcome
      = .ok successMarker ∧
    (apiCall "t0ken" (fun _ _ => respBlank) "/e" noOptions config.API_BASE_URL).outcome
      = .ok successMarker ∧
    (apiCall "t0ken" (fun _ _ => respJson) "/e" noOptions config.API_BASE_URL).outcome
      = .ok (.arr [.num 1]) ∧
    (apiCall "t0ken" (fun _ _ => respRaw) "/e" noOptions config.API_BASE_URL).outcome
      = .ok (.obj [("success", .bool true), ("raw", .str "hello")]) := by
  have htok : ¬(("t0ken" : String) = "" ∨ ("t0ken" : String) = "your_channel_access_token_here") := by
    decide
  refine ⟨?_, ?_, ?_, ?_, ?_⟩
  · exact (claim_C4_success_normalization "t0ken" htok (fun _ _ => resp204) "/e" noOptions
      config.API_BASE_URL resp204
      (by rw [fetchWithRetry_last _ 0 (fun hc => absurd hc.1 (by decide))])).1 rfl
  · exact (claim_C4_success_normalization "t0ken" htok (fun _ _ => respEmptyObjText) "/e" noOptions
      config.API_BASE_URL respEmptyObjText
      (by rw [fetchWithRetry_last _ 0 (fun hc => absurd hc.1 (by decide))])).2.1
      (by decide) (by decide) rfl
  · exact (claim_C4_success_normalization "t0ken" htok (fun _ _ => respBlank) "/e" noOptions
      config.API_BASE_URL respBlank
      (by rw [fetchWithRetry_last _ 0 (fun hc => absurd hc.1 (by decide))])).2.2.1
      (by decide) (by decide) rfl
  · exact (claim_C4_success_normalization "t0ken" htok (fun _ _ => respJson) "/e" noOptions
      config.API_BASE_URL respJson
      (by rw [fetchWithRetry_last _ 0 (fun hc => absurd hc.1 (by decide))])).2.2.2.1
      (by decide) (by decide) (by decide) (.arr [.num 1]) rfl
  · exact (claim_C4_success_normalization "t0ken" htok (fun _ _ => respRaw) "/e" noOptions
      config.API_BASE_URL respRaw
      (by rw [fetchWithRetry_last _ 0 (fun hc => absurd hc.1 (by decide))])).2.2.2.2.1
      (by decide) (by decide) (by decide) (by decide) (by decide) rfl

/-- A concrete 404 JSON error response with a remote-supplied message body. -/
def resp404 : Response :=
  { status := 404
    contentType := some "application/json"
    bodyText := "\x7b\"message\":\"nope\"\x7d"
    bodyJson := some (.obj [("message", .str "nope")])
    bodyBytes := ByteArray.empty }

/-- C5 counterexample: on a 404 whose body carries a remote-supplied
message, `downloadRichMenuImage` throws with an empty `details` object and
its own generic download message — not the remote-supplied error body and
not the §4.1 lookup-table message — refuting the claim as stated. -/
theorem claim_C5_counterexample :
    ∃ e, (downloadRichMenuImage "t0ken" (fun _ _ => resp404) "m1").outcome = .apiError e ∧
      e.statusCode = 404 ∧
      e.details = .obj [] ∧
      e.details ≠ (.obj [("message", .str "nope")]) ∧
      e.message ≠ getErrorMessage 404 (.obj [("message", .str "nope")]) := by
  unfold downloadRichMenuImage
  have hens : ensureToken "t0ken" = .ok "t0ken" := by
    simp [ensureToken]
  rw [hens]
  dsimp only
  rw [fetchWithRetry_last _ 0 (fun hc => absurd hc.1 (by decide))]
  refine ⟨_, rfl, rfl, rfl, by simp, ?_⟩
  have : getErrorMessage 404 (.obj [("message", .str "nope")]) =
      "找不到指定的資源（Rich Menu 或使用者）。" := by
    simp [getErrorMessage]
  rw [this]
  decide

/-- C5 amended: `downloadRichMenuImage` checks the token, dispatches one
authenticated request through the same retry-enabled `fetchWithRetry` to
the data-plane base URL; every non-2xx final response is thrown as a
`RichMenuApiError` carrying the numeric status code, the generic download
message (including the status), and an empty `details` object — the
remote-supplied body is not attached; on success the raw binary payload is
returned unmodified. -/
theorem claim_C5_download_amended
    (tok : String) (htok : ¬(tok = "" ∨ tok = "your_channel_access_token_here"))
    (tr : Transport) (richMenuId : String) (resp : Response)
    (hresp : (fetchWithRetry (tr
        { url := config.DATA_API_BASE_URL ++ "/v2/bot/richmenu/" ++ richMenuId ++ "/content"
          method := "GET", contentType := none
          authorization := some ("Bearer " ++ tok), reqBody := none }) 0).response = resp) :
    (downloadRichMenuImage tok tr richMenuId).request = some
      { url := config.DATA_API_BASE_URL ++ "/v2/bot/richmenu/" ++ richMenuId ++ "/content"
        method := "GET", contentType := none
        authorization := some ("Bearer " ++ tok), reqBody := none } ∧
    (downloadRichMenuImage tok tr richMenuId).calls = (fetchWithRetry (tr
      { url := config.DATA_API_BASE_URL ++ "/v2/bot/richmenu/" ++ richMenuId ++ "/content"
        method := "GET", contentType := none
        authorization := some ("Bearer " ++ tok), reqBody := none }) 0).attempts ∧
    (respOk resp = false →
      (downloadRichMenuImage tok tr richMenuId).outcome = .apiError
        { message := "無法下載圖片（HTTP " ++ toString resp.status ++ "）"
          statusCode := resp.status
          details := .obj [] }) ∧
    (respOk resp = true →
      (downloadRichMenuImage tok tr richMenuId).outcome = .ok resp.bodyBytes) := by
  have hens : ensureToken tok = .ok tok := by
    unfold ensureToken
    rw [if_neg htok]
  refine ⟨?_, ?_, ?_, ?_⟩
  · unfold downloadRichMenuImage
    rw [hens]
  · unfold downloadRichMenuImage
    rw [hens]
  · intro hfail
    unfold downloadRichMenuImage
    rw [hens]
    dsimp only
    rw [hresp]
    simp [hfail]
  · intro hok2
    unfold downloadRichMenuImage
    rw [hens]
    dsimp only
    rw [hresp]
    simp [hok2]

/-- A concrete 200 binary response carrying image bytes. -/
def respBin : Response :=
  { status := 200
    contentType := some "image/png"
    bodyText := ""
    bodyJson := none
    bodyBytes := ByteArray.mk #[1, 2, 3] }

/-- Witness for the amended C5: on a constant 404 transport the download
throws the generic typed error with empty details, and on a 200 binary
response it returns the body bytes unmodified. -/
theorem claim_C5_download_amended_witness :
    ¬(("t0ken" : String) = "" ∨ ("t0ken" : String) = "your_channel_access_token_here") ∧
    respOk resp404 = false ∧
    respOk respBin = true ∧
    (downloadRichMenuImage "t0ken" (fun _ _ => resp404) "m1").outcome = .apiError
      { message := "無法下載圖片（HTTP " ++ toString resp404.status ++ "）"
        statusCode := resp404.status
        details := .obj [] } ∧
    (downloadRichMenuImage "t0ken" (fun _ _ => respBin) "m1").outcome = .ok respBin.bodyBytes := by
  have htok : ¬(("t0ken" : String) = "" ∨ ("t0ken" : String) = "your_channel_access_token_here") := by
    decide
  refine ⟨htok, by decide, by decide, ?_, ?_⟩
  · exact (claim_C5_download_amended "t0ken" htok (fun _ _ => resp404) "m1" resp404
      (by rw [fetchWithRetry_last _ 0 (fun hc => absurd hc.1 (by decide))])).2.2.1 (by decide)
  · exact (claim_C5_download_amended "t0ken" htok (fun _ _ => respBin) "m1" respBin
      (by rw [fetchWithRetry_last _ 0 (fun hc => absurd hc.1 (by decide))])).2.2.2 (by decide)

/-- With a valid token, `apiCall` sends exactly the request built from the
base URL, endpoint and options (with the bearer header), and makes at
least one transport call. -/
theorem apiCall_good (tok : String)
    (htok : ¬(tok = "" ∨ tok = "your_channel_access_token_here"))
    (tr : Transport) (endpoint : String) (opts : ApiOptions) (base : String) :
    (apiCall tok tr endpoint opts base).request = some
      { url := base ++ endpoint, method := opts.method, contentType := opts.contentType
        authorization := some ("Bearer " ++ tok), reqBody := opts.reqBody } ∧
    1 ≤ (apiCall tok tr endpoint opts base).calls := by
  unfold apiCall
  rw [show ensureToken tok = .ok tok from by unfold ensureToken; rw [if_neg htok]]
  dsimp only
  exact ⟨rfl, fetchWithRetry_attempts_pos _ 0⟩

/-- C6: local validation short-circuits before any network I/O — a buffer
over 1,048,576 bytes makes `uploadRichMenuImage` throw a 400 with zero
transport calls, a user list longer than 500 makes the bulk operations
throw a 400 with zero transport calls, and a list of exactly 500 user IDs
proceeds to the network (at least one transport call, a request sent). -/
theorem claim_C6_local_validation (tok : String)
    (htok : ¬(tok = "" ∨ tok = "your_channel_access_token_here"))
    (tr : Transport) (resolvePath : String → String) (readFile : String → Option ByteArray)
    (richMenuId ct : String)
    (b : ByteArray) (hbig : b.size > 1024 * 1024)
    (userIds : List String) (hover : userIds.length > 500)
    (userIds500 : List String) (h500 : userIds500.length = 500) :
    (∃ e, uploadRichMenuImage tok tr resolvePath readFile richMenuId (.buffer b) ct =
      { outcome := .apiError e, calls := 0, request := none } ∧ e.statusCode = 400) ∧
    (∃ e, bulkLinkRichMenu tok tr richMenuId userIds =
      { outcome := .apiError e, calls := 0, request := none } ∧ e.statusCode = 400) ∧
    (∃ e, bulkUnlinkRichMenu tok tr userIds =
      { outcome := .apiError e, calls := 0, request := none } ∧ e.statusCode = 400) ∧
    (1 ≤ (bulkLinkRichMenu tok tr richMenuId userIds500).calls ∧
      (bulkLinkRichMenu tok tr richMenuId userIds500).request ≠ none) ∧
    (1 ≤ (bulkUnlinkRichMenu tok tr userIds500).calls ∧
      (bulkUnlinkRichMenu tok tr userIds500).request ≠ none) := by
  have hnot : ¬ userIds500.length > 500 := by omega
  refine ⟨?_, ?_, ?_, ?_, ?_⟩
  · unfold uploadRichMenuImage
    dsimp only
    rw [if_pos hbig]
    exact ⟨_, rfl, rfl⟩
  · unfold bulkLinkRichMenu
    rw [if_pos hover]
    exact ⟨_, rfl, rfl⟩
  · unfold bulkUnlinkRichMenu
    rw [if_pos hover]
    exact ⟨_, rfl, rfl⟩
  · unfold bulkLinkRichMenu
    rw [if_neg hnot]
    obtain ⟨hreq, hcalls⟩ := apiCall_good tok htok tr "/v2/bot/richmenu/bulk/link" _ _
    exact ⟨hcalls, by rw [hreq]; simp⟩
  · unfold bulkUnlinkRichMenu
    rw [if_neg hnot]
    obtain ⟨hreq, hcalls⟩ := apiCall_good tok htok tr "/v2/bot/richmenu/bulk/unlink" _ _
    exact ⟨hcalls, by rw [hreq]; simp⟩

/-- Witness for C6 at a 1,048,577-byte buffer and 501/500-element user
lists: the oversize and overlong inputs fail locally with 400 and zero
calls, and the 500-element list reaches the network. -/
theorem claim_C6_local_validation_witness :
    (ByteArray.mk (Array.mkArray 1048577 0)).size > 1024 * 1024 ∧
    (List.replicate 501 "u").length > 500 ∧
    (List.replicate 500 "u").length = 500 ∧
    (∃ e, uploadRichMenuImage "t0ken" (fun _ _ => resp404) (fun p => p) (fun _ => none) "m1"
        (.buffer (ByteArray.mk (Array.mkArray 1048577 0))) "image/png" =
      { outcome := .apiError e, calls := 0, request := none } ∧ e.statusCode = 400) ∧
    (∃ e, bulkLinkRichMenu "t0ken" (fun _ _ => resp404) "m1" (List.replicate 501 "u") =
      { outcome := .apiError e, calls := 0, request := none } ∧ e.statusCode = 400) ∧
    1 ≤ (bulkLinkRichMenu "t0ken" (fun _ _ => resp404) "m1" (List.replicate 500 "u")).calls := by
  have hb : (ByteArray.mk (Array.mkArray 1048577 0)).size > 1024 * 1024 := by
    simp [ByteArray.size]
  have hover : (List.replicate 501 "u").length > 500 := by
    rw [List.length_replicate]
    omega
  have h500 : (List.replicate 500 "u").length = 500 := by
    rw [List.length_replicate]
  have H := claim_C6_local_validation "t0ken" (by decide) (fun _ _ => resp404)
    (fun p => p) (fun _ => none) "m1" "image/png"
    (ByteArray.mk (Array.mkArray 1048577 0)) hb (List.replicate 501 "u") hover
    (List.replicate 500 "u") h500
  exact ⟨hb, hover, h500, H.1, H.2.1, H.2.2.2.1.1⟩

/-- The request a list-unwrapping operation sends is the one its inner
`apiCall` sends (the unwrap step only rewrites the outcome). -/
theorem listRichMenus_request (tok : String) (tr : Transport) :
    (listRichMenus tok tr).request =
      (apiCall tok tr "/v2/bot/richmenu/list" noOptions config.API_BASE_URL).request := by
  unfold listRichMenus
  cases hx : (apiCall tok tr "/v2/bot/richmenu/list" noOptions config.API_BASE_URL).outcome <;>
    simp [hx]

/-- Same as `listRichMenus_request`, for the alias list. -/
theorem listRichMenuAliases_request (tok : String) (tr : Transport) :
    (listRichMenuAliases tok tr).request =
      (apiCall tok tr "/v2/bot/richmenu/alias/list" noOptions config.API_BASE_URL).request := by
  unfold listRichMenuAliases
  cases hx : (apiCall tok tr "/v2/bot/richmenu/alias/list" noOptions config.API_BASE_URL).outcome <;>
    simp [hx]

/-- C7: the two base addresses are distinct; both image operations send
their request to the data-plane base address, and every other exported
operation sends its request to the control-plane base address. -/
theorem claim_C7_base_addresses (tok : String)
    (htok : ¬(tok = "" ∨ tok = "your_channel_access_token_here"))
    (tr : Transport) (id uid aliasId : String) (data : JsonVal)
    (userIds : List String) (hlen : ¬ userIds.length > 500)
    (resolvePath : String → String) (readFile : String → Option ByteArray)
    (b : ByteArray) (hsize : ¬ b.size > 1024 * 1024) (ct : String) :
    config.DATA_API_BASE_URL ≠ config.API_BASE_URL ∧
    (∃ r, (uploadRichMenuImage tok tr resolvePath readFile id (.buffer b) ct).request = some r ∧
      r.url = config.DATA_API_BASE_URL ++ ("/v2/bot/richmenu/" ++ id ++ "/content")) ∧
    (∃ r, (downloadRichMenuImage tok tr id).request = some r ∧
      r.url = config.DATA_API_BASE_URL ++ "/v2/bot/richmenu/" ++ id ++ "/content") ∧
    (∃ r, (listRichMenus tok tr).request = some r ∧
      r.url = config.API_BASE_URL ++ "/v2/bot/richmenu/list") ∧
    (∃ r, (getRichMenu tok tr id).request = some r ∧
      r.url = config.API_BASE_URL ++ ("/v2/bot/richmenu/" ++ id)) ∧
    (∃ r, (createRichMenu tok tr data).request = some r ∧
      r.url = config.API_BASE_URL ++ "/v2/bot/richmenu") ∧
    (∃ r, (validateRichMenu tok tr data).request = some r ∧
      r.url = config.API_BASE_URL ++ "/v2/bot/richmenu/validate") ∧
    (∃ r, (deleteRichMenu tok tr id).request = some r ∧
      r.url = config.API_BASE_URL ++ ("/v2/bot/richmenu/" ++ id)) ∧
    (∃ r, (setDefaultRichMenu tok tr id).request = some r ∧
      r.url = config.API_BASE_URL ++ ("/v2/bot/user/all/richmenu/" ++ id)) ∧
    (∃ r, (getDefaultRichMenu tok tr).request = some r ∧
      r.url = config.API_BASE_URL ++ "/v2/bot/user/all/richmenu") ∧
    (∃ r, (cancelDefaultRichMenu tok tr).request = some r ∧
      r.url = config.API_BASE_URL ++ "/v2/bot/user/all/richmenu") ∧
    (∃ r, (linkRichMenuToUser tok tr uid id).request = some r ∧
      r.url = config.API_BASE_URL ++ ("/v2/bot/user/" ++ uid ++ "/richmenu/" ++ id)) ∧
    (∃ r, (unlinkRichMenuFromUser tok tr uid).request = some r ∧
      r.url = config.API_BASE_URL ++ ("/v2/bot/user/" ++ uid ++ "/richmenu")) ∧
    (∃ r, (getUserRichMenu tok tr uid).request = some r ∧
      r.url = config.API_BASE_URL ++ ("/v2/bot/user/" ++ uid ++ "/richmenu")) ∧
    (∃ r, (bulkLinkRichMenu tok tr id userIds).request = some r ∧
      r.url = config.API_BASE_URL ++ "/v2/bot/richmenu/bulk/link") ∧
    (∃ r, (bulkUnlinkRichMenu tok tr userIds).request = some r ∧
      r.url = config.API_BASE_URL ++ "/v2/bot/richmenu/bulk/unlink") ∧
    (∃ r, (createRichMenuAlias tok tr aliasId id).request = some r ∧
      r.url = config.API_BASE_URL ++ "/v2/bot/richmenu/alias") ∧
    (∃ r, (updateRichMenuAlias tok tr aliasId id).request = some r ∧
      r.url = config.API_BASE_URL ++ ("/v2/bot/richmenu/alias/" ++ aliasId)) ∧
    (∃ r, (getRichMenuAlias tok tr aliasId).request = some r ∧
      r.url = config.API_BASE_URL ++ ("/v2/bot/richmenu/alias/" ++ aliasId)) ∧
    (∃ r, (deleteRichMenuAlias tok tr aliasId).request = some r ∧
      r.url = config.API_BASE_URL ++ ("/v2/bot/richmenu/alias/" ++ aliasId)) ∧
    (∃ r, (listRichMenuAliases tok tr).request = some r ∧
      r.url = config.API_BASE_URL ++ "/v2/bot/richmenu/alias/list") := by
  refine ⟨by decide, ?_, ?_, ?_, ?_, ?_, ?_, ?_, ?_, ?_, ?_, ?_, ?_, ?_, ?_, ?_, ?_, ?_, ?_, ?_, ?_⟩
  · unfold uploadRichMenuImage
    dsimp only
    rw [if_neg hsize]
    exact ⟨_, (apiCall_good tok htok tr _ _ _).1, rfl⟩
  · unfold downloadRichMenuImage
    rw [show ensureToken tok = .ok tok from by unfold ensureToken; rw [if_neg htok]]
    exact ⟨_, rfl, rfl⟩
  · rw [listRichMenus_request]
    exact ⟨_, (apiCall_good tok htok tr _ _ _).1, rfl⟩
  · exact ⟨_, (apiCall_good tok htok tr _ _ _).1, rfl⟩
  · exact ⟨_, (apiCall_good tok htok tr _ _ _).1, rfl⟩
  · exact ⟨_, (apiCall_good tok htok tr _ _ _).1, rfl⟩
  · exact ⟨_, (apiCall_good tok htok tr _ _ _).1, rfl⟩
  · exact ⟨_, (apiCall_good tok htok tr _ _ _).1, rfl⟩
  · exact ⟨_, (apiCall_good tok htok tr _ _ _).1, rfl⟩
  · exact ⟨_, (apiCall_good tok htok tr _ _ _).1, rfl⟩
  · exact ⟨_, (apiCall_good tok htok tr _ _ _).1, rfl⟩
  · exact ⟨_, (apiCall_good tok htok tr _ _ _).1, rfl⟩
  · exact ⟨_, (apiCall_good tok htok tr _ _ _).1, rfl⟩
  · unfold bulkLinkRichMenu
    rw [if_neg hlen]
    exact ⟨_, (apiCall_good tok htok tr _ _ _).1, rfl⟩
  · unfold bulkUnlinkRichMenu
    rw [if_neg hlen]
    exact ⟨_, (apiCall_good tok htok tr _ _ _).1, rfl⟩
  · exact ⟨_, (apiCall_good tok htok tr _ _ _).1, rfl⟩
  · exact ⟨_, (apiCall_good tok htok tr _ _ _).1, rfl⟩
  · exact ⟨_, (apiCall_good tok htok tr _ _ _).1, rfl⟩
  · exact ⟨_, (apiCall_good tok htok tr _ _ _).1, rfl⟩
  · rw [listRichMenuAliases_request]
    exact ⟨_, (apiCall_good tok htok tr _ _ _).1, rfl⟩

/-- Witness for C7: with a concrete valid token, empty buffer and empty
user list, the upload request targets the data-plane address and the list
request targets the control-plane address. -/
theorem claim_C7_base_addresses_witness :
    ¬(("t0ken" : String) = "" ∨ ("t0ken" : String) = "your_channel_access_token_here") ∧
    ¬ (ByteArray.empty.size > 1024 * 1024) ∧
    ¬ (([] : List String).length > 500) ∧
    (∃ r, (uploadRichMenuImage "t0ken" (fun _ _ => respJson) (fun p => p) (fun _ => none)
        "m1" (.buffer ByteArray.empty) "image/png").request = some r ∧
      r.url = config.DATA_API_BASE_URL ++ ("/v2/bot/richmenu/" ++ "m1" ++ "/content")) ∧
    (∃ r, (listRichMenus "t0ken" (fun _ _ => respJson)).request = some r ∧
      r.url = config.API_BASE_URL ++ "/v2/bot/richmenu/list") := by
  have H := claim_C7_base_addresses "t0ken" (by decide) (fun _ _ => respJson) "m1" "u1" "a1"
    (.obj []) [] (by decide) (fun p => p) (fun _ => none) ByteArray.empty (by decide) "image/png"
  exact ⟨by decide, by decide, by decide, H.2.1, H.2.2.2.1⟩

/-- On any non-null result, `result.field || fallback` reduces to the
truthiness dispatch on the looked-up field. -/
theorem unwrapField_eq (result : JsonVal) (hnn : result ≠ .null)
    (field : String) (fallback : JsonVal) :
    unwrapField result field fallback =
      (match jsOptField result field with
       | some v => if jsTruthy v then .ok v else .ok fallback
       | none => .ok fallback) := by
  cases result
  · exact absurd rfl hnn
  all_goals rfl

/-- C8: when the inner call succeeds with a non-null body whose wrapping
field (`richmenus` / `aliases`), if present, holds an array, the two list
operations return the value of the field when it is present and the empty array
when it is absent — in all cases an array, never null. -/
theorem claim_C8_list_unwrap (tok : String) (tr : Transport)
    (result : JsonVal)
    (hok : (apiCall tok tr "/v2/bot/richmenu/list" noOptions config.API_BASE_URL).outcome
      = .ok result)
    (harr : ∀ v, jsOptField result "richmenus" = some v → ∃ xs, v = .arr xs)
    (hnn : result ≠ .null)
    (result2 : JsonVal)
    (hok2 : (apiCall tok tr "/v2/bot/richmenu/alias/list" noOptions config.API_BASE_URL).outcome
      = .ok result2)
    (harr2 : ∀ v, jsOptField result2 "aliases" = some v → ∃ xs, v = .arr xs)
    (hnn2 : result2 ≠ .null) :
    ((∀ v, jsOptField result "richmenus" = some v →
        (listRichMenus tok tr).outcome = .ok v) ∧
      (jsOptField result "richmenus" = none →
        (listRichMenus tok tr).outcome = .ok (.arr [])) ∧
      (∃ xs, (listRichMenus tok tr).outcome = .ok (.arr xs))) ∧
    ((∀ v, jsOptField result2 "aliases" = some v →
        (listRichMenuAliases tok tr).outcome = .ok v) ∧
      (jsOptField result2 "aliases" = none →
        (listRichMenuAliases tok tr).outcome = .ok (.arr [])) ∧
      (∃ xs, (listRichMenuAliases tok tr).outcome = .ok (.arr xs))) := by
  have hmain : (listRichMenus tok tr).outcome = unwrapField result "richmenus" (.arr []) := by
    unfold listRichMenus
    dsimp only
    rw [hok]
  have hmain2 : (listRichMenuAliases tok tr).outcome = unwrapField result2 "aliases" (.arr []) := by
    unfold listRichMenuAliases
    dsimp only
    rw [hok2]
  refine ⟨⟨?_, ?_, ?_⟩, ⟨?_, ?_, ?_⟩⟩
  · intro v hv
    obtain ⟨xs, rfl⟩ := harr v hv
    rw [hmain, unwrapField_eq result hnn, hv]
    simp [jsTruthy]
  · intro hv
    rw [hmain, unwrapField_eq result hnn, hv]
  · rw [hmain, unwrapField_eq result hnn]
    cases hv : jsOptField result "richmenus" with
    | some v =>
      obtain ⟨xs, rfl⟩ := harr v hv
      exact ⟨xs, by simp [jsTruthy]⟩
    | none => exact ⟨[], rfl⟩
  · intro v hv
    obtain ⟨xs, rfl⟩ := harr2 v hv
    rw [hmain2, unwrapField_eq result2 hnn2, hv]
    simp [jsTruthy]
  · intro hv
    rw [hmain2, unwrapField_eq result2 hnn2, hv]
  · rw [hmain2, unwrapField_eq result2 hnn2]
    cases hv : jsOptField result2 "aliases" with
    | some v =>
      obtain ⟨xs, rfl⟩ := harr2 v hv
      exact ⟨xs, by simp [jsTruthy]⟩
    | none => exact ⟨[], rfl⟩

/-- With a valid token, a non-204 2xx JSON-content-type final response
makes `apiCall` return the parsed body. -/
theorem apiCall_ok_json (tok : String)
    (htok : ¬(tok = "" ∨ tok = "your_channel_access_token_here"))
    (tr : Transport) (endpoint : String) (opts : ApiOptions) (base : String)
    (resp : Response)
    (hresp : (fetchWithRetry (tr
        { url := base ++ endpoint, method := opts.method, contentType := opts.contentType
          authorization := some ("Bearer " ++ tok), reqBody := opts.reqBody }) 0).response = resp)
    (hok : respOk resp = true) (h204 : resp.status ≠ 204)
    (hct : strIncludes (resp.contentType.getD "") "application/json" = true)
    (j : JsonVal) (hj : resp.bodyJson = some j) :
    (apiCall tok tr endpoint opts base).outcome = .ok j := by
  unfold apiCall
  simp only [ensureToken, if_neg htok]
  rw [hresp]
  simp [h204, hok, hct, hj]

/-- A transport for the list witnesses: the menu-list endpoint answers
with a one-element `richmenus` wrapper, every other URL with an empty
object (no `aliases` field). -/
def listTransport : Transport := fun req _ =>
  if req.url = config.API_BASE_URL ++ "/v2/bot/richmenu/list" then
    { status := 200, contentType := some "application/json", bodyText := ""
      bodyJson := some (.obj [("richmenus", .arr [.str "m1"])]), bodyBytes := ByteArray.empty }
  else
    { status := 200, contentType := some "application/json", bodyText := ""
      bodyJson := some (.obj []), bodyBytes := ByteArray.empty }

/-- Every response of `listTransport` has status 200. -/
theorem listTransport_status (req : Request) (n : Nat) :
    (listTransport req n).status = 200 := by
  unfold listTransport
  split <;> rfl

/-- Witness for C8: against `listTransport`, `listRichMenus` returns the
wrapped array and `listRichMenuAliases` (field absent) returns the empty
array. -/
theorem claim_C8_list_unwrap_witness :
    jsOptField (.obj [("richmenus", .arr [.str "m1"])]) "richmenus" = some (.arr [.str "m1"]) ∧
    jsOptField (.obj []) "aliases" = none ∧
    (listRichMenus "t0ken" listTransport).outcome = .ok (.arr [.str "m1"]) ∧
    (listRichMenuAliases "t0ken" listTransport).outcome = .ok (.arr []) := by
  have htok : ¬(("t0ken" : String) = "" ∨ ("t0ken" : String) = "your_channel_access_token_here") := by
    decide
  have hstop : ∀ (req : Request),
      (fetchWithRetry (listTransport req) 0).response = listTransport req 0 := by
    intro req
    rw [fetchWithRetry_last _ 0 (fun hc => by
      have h1 := hc.1
      rw [listTransport_status] at h1
      exact absurd h1 (by decide))]
  have hok : (apiCall "t0ken" listTransport "/v2/bot/richmenu/list" noOptions
      config.API_BASE_URL).outcome = .ok (.obj [("richmenus", .arr [.str "m1"])]) := by
    refine apiCall_ok_json "t0ken" htok listTransport "/v2/bot/richmenu/list" noOptions
      config.API_BASE_URL (listTransport
        { url := config.API_BASE_URL ++ "/v2/bot/richmenu/list", method := noOptions.method
          contentType := noOptions.contentType, authorization := some ("Bearer " ++ "t0ken")
          reqBody := noOptions.reqBody } 0)
      (hstop _) ?_ ?_ ?_ _ ?_ <;>
      simp +decide [listTransport, respOk, strIncludes]
  have hok2 : (apiCall "t0ken" listTransport "/v2/bot/richmenu/alias/list" noOptions
      config.API_BASE_URL).outcome = .ok (.obj []) := by
    refine apiCall_ok_json "t0ken" htok listTransport "/v2/bot/richmenu/alias/list" noOptions
      config.API_BASE_URL (listTransport
        { url := config.API_BASE_URL ++ "/v2/bot/richmenu/alias/list", method := noOptions.method
          contentType := noOptions.contentType, authorization := some ("Bearer " ++ "t0ken")
          reqBody := noOptions.reqBody } 0)
      (hstop _) ?_ ?_ ?_ _ ?_ <;>
      simp +decide [listTransport, respOk, strIncludes]
  have H := claim_C8_list_unwrap "t0ken" listTransport
    (.obj [("richmenus", .arr [.str "m1"])]) hok
    (by intro v hv; simp [jsOptField] at hv; exact ⟨_, hv.symm⟩)
    (by simp)
    (.obj []) hok2
    (by intro v hv; simp [jsOptField] at hv)
    (by simp)
  exact ⟨rfl, rfl, H.1.1 _ rfl, H.2.2.1 rfl⟩

/-- C9: even when the credential is empty or the placeholder, local input
validation fires first — an invalid image argument, a missing file path,
an oversized buffer, and an overlong bulk user list each throw a 400 (not
the 401 of the credential gate) with zero transport calls. -/
theorem claim_C9_validation_precedes_auth (tok : String)
    (hbad : tok = "" ∨ tok = "your_channel_access_token_here")
    (tr : Transport) (resolvePath : String → String) (readFile : String → Option ByteArray)
    (id ct p : String) (hmissing : readFile (resolvePath p) = none)
    (b : ByteArray) (hbig : b.size > 1024 * 1024)
    (userIds : List String) (hover : userIds.length > 500) :
    (∃ e, uploadRichMenuImage tok tr resolvePath readFile id .invalid ct =
      { outcome := .apiError e, calls := 0, request := none } ∧
      e.statusCode = 400 ∧ e.statusCode ≠ 401) ∧
    (∃ e, uploadRichMenuImage tok tr resolvePath readFile id (.filePath p) ct =
      { outcome := .apiError e, calls := 0, request := none } ∧
      e.statusCode = 400 ∧ e.statusCode ≠ 401) ∧
    (∃ e, uploadRichMenuImage tok tr resolvePath readFile id (.buffer b) ct =
      { outcome := .apiError e, calls := 0, request := none } ∧
      e.statusCode = 400 ∧ e.statusCode ≠ 401) ∧
    (∃ e, bulkLinkRichMenu tok tr id userIds =
      { outcome := .apiError e, calls := 0, request := none } ∧
      e.statusCode = 400 ∧ e.statusCode ≠ 401) ∧
    (∃ e, bulkUnlinkRichMenu tok tr userIds =
      { outcome := .apiError e, calls := 0, request := none } ∧
      e.statusCode = 400 ∧ e.statusCode ≠ 401) := by
  refine ⟨?_, ?_, ?_, ?_, ?_⟩
  · unfold uploadRichMenuImage
    dsimp only
    exact ⟨_, rfl, rfl, by decide⟩
  · unfold uploadRichMenuImage
    dsimp only
    rw [hmissing]
    exact ⟨_, rfl, rfl, by simp⟩
  · unfold uploadRichMenuImage
    dsimp only
    rw [if_pos hbig]
    exact ⟨_, rfl, rfl, by simp⟩
  · unfold bulkLinkRichMenu
    rw [if_pos hover]
    exact ⟨_, rfl, rfl, by decide⟩
  · unfold bulkUnlinkRichMenu
    rw [if_pos hover]
    exact ⟨_, rfl, rfl, by decide⟩

/-- Witness for C9 with the empty credential: the invalid image argument,
a missing file, the 1,048,577-byte buffer and the 501-element list all
fail with 400 and zero calls. -/
theorem claim_C9_validation_precedes_auth_witness :
    (("" : String) = "" ∨ ("" : String) = "your_channel_access_token_here") ∧
    ((fun _ : String => (none : Option ByteArray)) ((fun q => q) "img.png") = none) ∧
    (ByteArray.mk (Array.mkArray 1048577 0)).size > 1024 * 1024 ∧
    (List.replicate 501 "u").length > 500 ∧
    (∃ e, uploadRichMenuImage "" (fun _ _ => resp404) (fun q => q)
        (fun _ => (none : Option ByteArray)) "m1" .invalid "image/png" =
      { outcome := .apiError e, calls := 0, request := none } ∧
      e.statusCode = 400 ∧ e.statusCode ≠ 401) ∧
    (∃ e, uploadRichMenuImage "" (fun _ _ => resp404) (fun q => q)
        (fun _ => (none : Option ByteArray)) "m1" (.filePath "img.png") "image/png" =
      { outcome := .apiError e, calls := 0, request := none } ∧
      e.statusCode = 400 ∧ e.statusCode ≠ 401) ∧
    (∃ e, bulkLinkRichMenu "" (fun _ _ => resp404) "m1" (List.replicate 501 "u") =
      { outcome := .apiError e, calls := 0, request := none } ∧
      e.statusCode = 400 ∧ e.statusCode ≠ 401) := by
  have hb : (ByteArray.mk (Array.mkArray 1048577 0)).size > 1024 * 1024 := by
    simp [ByteArray.size]
  have hover : (List.replicate 501 "u").length > 500 := by
    rw [List.length_replicate]
    omega
  have H := claim_C9_validation_precedes_auth "" (Or.inl rfl) (fun _ _ => resp404)
    (fun q => q) (fun _ => (none : Option ByteArray)) "m1" "image/png" "img.png" rfl
    (ByteArray.mk (Array.mkArray 1048577 0)) hb (List.replicate 501 "u") hover
  exact ⟨Or.inl rfl, rfl, hb, hover, H.1, H.2.1, H.2.2.2.1⟩

/-- C10: for a Buffer input, `uploadRichMenuImage` forwards the
caller-supplied content type into the request header unchecked —
`config.ALLOWED_IMAGE_TYPES` is never consulted, so even a type outside
that list (e.g. `image/gif`) still produces a network request — while
extension-based MIME detection applies only to file-path inputs, where a
`.jpg` extension overrides the argument with `image/jpeg`. -/
theorem claim_C10_content_type_passthrough (tok : String)
    (htok : ¬(tok = "" ∨ tok = "your_channel_access_token_here"))
    (tr : Transport) (resolvePath : String → String) (readFile : String → Option ByteArray)
    (id ct : String) (b : ByteArray) (hsize : ¬ b.size > 1024 * 1024)
    (p : String) (content : ByteArray) (hread : readFile (resolvePath p) = some content)
    (hext : strToLower (extname (resolvePath p)) = ".jpg")
    (hcsize : ¬ content.size > 1024 * 1024) :
    ("image/gif" ∉ config.ALLOWED_IMAGE_TYPES) ∧
    (∃ r, (uploadRichMenuImage tok tr resolvePath readFile id (.buffer b) ct).request = some r ∧
      r.contentType = some ct ∧ r.method = "POST" ∧ r.reqBody = some (.bytes b)) ∧
    1 ≤ (uploadRichMenuImage tok tr resolvePath readFile id (.buffer b) ct).calls ∧
    (∃ r, (uploadRichMenuImage tok tr resolvePath readFile id (.filePath p) ct).request = some r ∧
      r.contentType = some "image/jpeg") := by
  refine ⟨by decide, ?_, ?_, ?_⟩
  · unfold uploadRichMenuImage
    dsimp only
    rw [if_neg hsize]
    exact ⟨_, (apiCall_good tok htok tr _ _ _).1, rfl, rfl, rfl⟩
  · unfold uploadRichMenuImage
    dsimp only
    rw [if_neg hsize]
    exact (apiCall_good tok htok tr _ _ _).2
  · unfold uploadRichMenuImage
    dsimp only
    rw [hread]
    dsimp only
    rw [if_pos (Or.inl hext)]
    rw [if_neg hcsize]
    exact ⟨_, (apiCall_good tok htok tr _ _ _).1, rfl⟩

/-- Witness for C10: a buffer uploaded as `image/gif` (not in
`ALLOWED_IMAGE_TYPES`) is sent with exactly that header, and a `.jpg`
file path is sent as `image/jpeg`. -/
theorem claim_C10_content_type_passthrough_witness :
    strToLower (extname ((fun q => q) "a.jpg")) = ".jpg" ∧
    ¬ (ByteArray.mk #[1, 2, 3]).size > 1024 * 1024 ∧
    (∃ r, (uploadRichMenuImage "t0ken" (fun _ _ => respJson) (fun q => q)
        (fun _ => some (ByteArray.mk #[1, 2, 3])) "m1"
        (.buffer (ByteArray.mk #[1, 2, 3])) "image/gif").request = some r ∧
      r.contentType = some "image/gif" ∧ r.method = "POST" ∧
      r.reqBody = some (.bytes (ByteArray.mk #[1, 2, 3]))) ∧
    (∃ r, (uploadRichMenuImage "t0ken" (fun _ _ => respJson) (fun q => q)
        (fun _ => some (ByteArray.mk #[1, 2, 3])) "m1"
        (.filePath "a.jpg") "image/gif").request = some r ∧
      r.contentType = some "image/jpeg") := by
  have hext : strToLower (extname ((fun q => q : String → String) "a.jpg")) = ".jpg" := by
    decide
  have H := claim_C10_content_type_passthrough "t0ken" (by decide) (fun _ _ => respJson)
    (fun q => q) (fun _ => some (ByteArray.mk #[1, 2, 3])) "m1" "image/gif"
    (ByteArray.mk #[1, 2, 3]) (by decide) "a.jpg" (ByteArray.mk #[1, 2, 3]) rfl hext (by decide)
  exact ⟨hext, by decide, H.2.1, H.2.2.2⟩
